import Mathlib

/-!
Shallow embedding of the Network Assurance & Verification Orchestrator of the
sisterSafe web app (`src/apps/web/src/app/page.tsx` and the hook wiring in the
unnamed page component).  The wallet provider is an external oracle: a
`ProviderEnv` fixes, for one execution, whether the injected provider is
present, the successive values returned by `eth_chainId` reads, the outcome of
each `switchChain` request and the outcome of the single
`wallet_addEthereumChain` request.  The embedded functions return, besides the
resolved boolean, a trace of how many provider requests of each kind were
issued, so that the counting claims can be stated.
-/

/-- A wallet-provider error object `{code, message, data: {code}}` as consumed
by the page: `code`, `data.code` and `message` may each be absent. -/
structure WalletError where
  code : Option Int := none
  dataCode : Option Int := none
  message : Option String := none
deriving DecidableEq

/-- Embeds `e?.code || e?.data?.code` — JavaScript `||` falls through to `data.code`
when `code` is absent or `0` (falsy). -/
def effectiveCode (e : WalletError) : Option Int :=
  match e.code with
  | some c => if c = 0 then e.dataCode else some c
  | none => e.dataCode

/-- Embeds `e?.message || ''`. -/
def errMessage (e : WalletError) : String :=
  e.message.getD ""

/-- Embeds `s.includes(pat)` — substring containment. -/
def containsText (s pat : String) : Bool :=
  decide (pat.toList <:+: s.toList)

/-- The condition under which `addCeloNetwork`'s catch block swallows an
add-chain failure (source lines 150-155): code `4902`, code `-32603`, or a
message mentioning "same RPC endpoint" or "existing network". -/
def addSwallowCond (e : WalletError) : Bool :=
  effectiveCode e == some 4902
  || effectiveCode e == some (-32603)
  || containsText (errMessage e) "same RPC endpoint"
  || containsText (errMessage e) "existing network"

/-- The named `AlreadyRegistered` condition of the spec: the error code or
message text indicates the chain is already registered with the wallet. -/
def AlreadyRegistered (e : WalletError) : Prop :=
  effectiveCode e = some 4902
  ∨ effectiveCode e = some (-32603)
  ∨ (String.toList "same RPC endpoint") <:+: (String.toList (errMessage e))
  ∨ (String.toList "existing network") <:+: (String.toList (errMessage e))

instance (e : WalletError) : Decidable (AlreadyRegistered e) := by
  unfold AlreadyRegistered
  infer_instance

/-- The condition under which `ensureCeloNetwork`'s inner catch retries the
switch after a failed add-then-switch (source lines 198-202): code `-32603`
or the two "already exists" message fragments, but not `4902`. -/
def retrySwitchCond (e : WalletError) : Bool :=
  effectiveCode e == some (-32603)
  || containsText (errMessage e) "same RPC endpoint"
  || containsText (errMessage e) "existing network"

/-- Embeds `addCeloNetwork`, given the outcome of its single
`wallet_addEthereumChain` request (`none` = the request succeeded,
`some e` = the request rejected with `e`): failures matching the swallow
condition return normally, every other failure is re-thrown verbatim. -/
def addCeloNetwork (addRes : Option WalletError) : Except WalletError Unit :=
  match addRes with
  | none => .ok ()
  | some e => if addSwallowCond e then .ok () else .error e

/-- One execution's view of the wallet provider: `present` is what
`getEthereum()` reports, `reads i` is the (hex-parsed) result of the `i`-th
`eth_chainId` read, `switchRes i` the outcome of the `i`-th `switchChain`
request (`none` = accepted), `addRes` the outcome of the add request. -/
structure ProviderEnv where
  present : Bool
  reads : Nat → Nat
  switchRes : Nat → Option WalletError
  addRes : Option WalletError

/-- The switch-then-add-then-switch phase of `ensureCeloNetwork` (source
lines 182-212).  Returns the escaping error, if any, together with the number
of switch requests and add requests issued. -/
def switchPhase (env : ProviderEnv) : Except WalletError Unit × Nat × Nat :=
  match env.switchRes 0 with
  | none => (.ok (), 1, 0)
  | some e1 =>
    if effectiveCode e1 == some 4902 then
      match addCeloNetwork env.addRes with
      | .ok () =>
        match env.switchRes 1 with
        | none => (.ok (), 2, 1)
        | some e2 =>
          if retrySwitchCond e2 then
            match env.switchRes 2 with
            | none => (.ok (), 3, 1)
            | some e3 => (.error e3, 3, 1)
          else (.error e2, 2, 1)
      | .error ae =>
        if retrySwitchCond ae then
          match env.switchRes 1 with
          | none => (.ok (), 2, 1)
          | some e2 => (.error e2, 2, 1)
        else (.error ae, 1, 1)
    else (.error e1, 1, 0)

/-- Result of the bounded poll loop: the resolved boolean, the number of
polls performed (each poll is one 500-time-unit sleep followed by one read)
and the last chain id read. -/
structure PollResult where
  ok : Bool
  polls : Nat
  lastRead : Option Nat
deriving DecidableEq

/-- The poll loop of `ensureCeloNetwork` (source lines 214-230): sleep 500,
read the chain id, return success on a match, give up after `fuel` polls. -/
def pollLoop (target : Nat) (reads : Nat → Nat) :
    Nat → Nat → Option Nat → Nat → PollResult
  | _, 0, last, polls => ⟨false, polls, last⟩
  | idx, fuel + 1, _, polls =>
    let v := reads idx
    if v = target then ⟨true, polls + 1, some v⟩
    else pollLoop target reads (idx + 1) fuel (some v) (polls + 1)

/-- Full trace of one `ensureCeloNetwork` call: the resolved boolean (the
source's outer catch turns every escaping error into `false`, so the promise
always resolves), the number of switch, add and read requests issued, the
number of 500-time-unit sleeps, and the last chain id read from the
provider. -/
structure EnsureResult where
  ok : Bool
  switchCount : Nat
  addCount : Nat
  readCount : Nat
  sleeps : Nat
  lastRead : Option Nat
deriving DecidableEq

/-- Embeds `ensureCeloNetwork` (source lines 166-240), with the target chain id as a
parameter (`celoSepolia.id` in the source). -/
def ensureCeloNetwork (target : Nat) (env : ProviderEnv) : EnsureResult :=
  if env.present = false then
    ⟨false, 0, 0, 0, 0, none⟩
  else
    let c0 := env.reads 0
    if c0 = target then
      ⟨true, 0, 0, 1, 0, some c0⟩
    else
      let sp := switchPhase env
      match sp.1 with
      | .error _ => ⟨false, sp.2.1, sp.2.2, 1, 0, some c0⟩
      | .ok () =>
        let p := pollLoop target env.reads 1 10 (some c0) 0
        ⟨p.ok, sp.2.1, sp.2.2, 1 + p.polls, p.polls, p.lastRead⟩

/-- One execution's view of `handleVerify`'s surroundings: the connection
flag, the provider environment seen by `ensureCeloNetwork`, and what the
second `getEthereum()` call and the final `eth_chainId` double-check read
return. -/
structure VerifyEnv where
  isConnected : Bool
  ensureEnv : ProviderEnv
  present2 : Bool
  finalRead : Nat

/-- Trace of one `handleVerify` call: whether the `verifyUser` contract write
was dispatched, and the chain id read by the final double-check (`none` when
the check was skipped or never reached). -/
structure VerifyResult where
  writeDispatched : Bool
  finalCheckRead : Option Nat
deriving DecidableEq

/-- Embeds `handleVerify` (source lines 242-282): abort when not connected, run
`ensureCeloNetwork`, abort on `false`; then, only when `getEthereum()` is
non-null, re-read the chain id and abort on a mismatch; finally dispatch the
`verifyUser` contract write. -/
def handleVerify (target : Nat) (venv : VerifyEnv) : VerifyResult :=
  if venv.isConnected = false then
    ⟨false, none⟩
  else
    let r := ensureCeloNetwork target venv.ensureEnv
    if r.ok = false then
      ⟨false, none⟩
    else if venv.present2 then
      if venv.finalRead = target then
        ⟨true, some venv.finalRead⟩
      else
        ⟨false, some venv.finalRead⟩
    else
      ⟨true, none⟩

/-- Enablement of the `useReadContract` hook that reads the on-chain
`isVerified` flag (unnamed page component, lines 106-115):
`enabled: !!address && isConnected`. -/
def readVerifiedEnabled (address : Option String) (isConnected : Bool) : Bool :=
  address.isSome && isConnected

/-- Embeds `args: address ? [address] : undefined` of the same hook: the read is
keyed by the currently connected address. -/
def readVerifiedArgs (address : Option String) : Option (List String) :=
  match address with
  | some a => some [a]
  | none => none

/-- Body of the effect on `[isVerifySuccess, refetchVerification]` (unnamed
page component, lines 137-143): when the transaction watcher reports success
it calls `refetchVerification()` once and clears the transient attempt
state.  Returns the number of refetch calls the body makes. -/
def verifySuccessEffect (isVerifySuccess : Bool) : Nat :=
  if isVerifySuccess then 1 else 0

/-- React effect semantics over a sequence of renders: the effect body runs
at the first render and at every later render where the `isVerifySuccess`
dependency changed; the total number of `refetchVerification()` calls is
accumulated.  The first argument is the dependency value of the previous
render, if any. -/
def refetchRuns : Option Bool → List Bool → Nat
  | _, [] => 0
  | prev, d :: rest =>
    (if prev = some d then 0 else verifySuccessEffect d) + refetchRuns (some d) rest

/-- The target chain id of the application, `celoSepolia.id`. -/
def celoSepoliaId : Nat := 11142220

/-- A provider error with code `4902` (unrecognized chain). -/
def err4902 : WalletError := { code := some 4902 }

/-- A provider error with code `-32603` (generic internal failure). -/
def err32603 : WalletError := { code := some (-32603) }

/-- A provider error with code `4001` (user declined the prompt). -/
def err4001 : WalletError := { code := some 4001 }

/-- Environment for the C2 scenario: the injected provider is absent. -/
def envAbsent : ProviderEnv :=
  { present := false, reads := fun _ => 1, switchRes := fun _ => none, addRes := none }

/-- A verify attempt started with the wallet connected but the provider
absent. -/
def venvAbsent : VerifyEnv :=
  { isConnected := true, ensureEnv := envAbsent, present2 := false, finalRead := 1 }

/-- Environment where the provider already reports the target chain. -/
def envOnTarget : ProviderEnv :=
  { present := true, reads := fun _ => celoSepoliaId
    switchRes := fun _ => none, addRes := none }

/-- Environment for the C4 counterexample: the first switch fails with code
`4902`, the add succeeds, the retried switch fails with code `-32603`, and
the third switch succeeds; the first poll then reads the target. -/
def envThreeSwitches : ProviderEnv :=
  { present := true
    reads := fun n => if n = 0 then 1 else celoSepoliaId
    switchRes := fun n =>
      if n = 0 then some err4902
      else if n = 1 then some err32603
      else none
    addRes := none }

/-- Environment where the first switch is accepted and the first poll reads
the target chain id. -/
def envSwitchThenPoll : ProviderEnv :=
  { present := true
    reads := fun n => if n = 0 then 1 else celoSepoliaId
    switchRes := fun _ => none, addRes := none }

/-- Environment where the first switch is rejected with code `4001`. -/
def envSwitchDeclined : ProviderEnv :=
  { present := true
    reads := fun n => if n = 0 then 1 else celoSepoliaId
    switchRes := fun n => if n = 0 then some err4001 else none
    addRes := none }

/-- A verify attempt whose switch prompt is declined. -/
def venvSwitchDeclined : VerifyEnv :=
  { isConnected := true, ensureEnv := envSwitchDeclined
    present2 := true, finalRead := celoSepoliaId }

/-- A verify attempt where the provider is present and already on the target
for `ensureCeloNetwork`, but the provider handle has vanished by the time of
the final pre-submission double-check. -/
def venvCheckSkipped : VerifyEnv :=
  { isConnected := true, ensureEnv := envOnTarget, present2 := false, finalRead := 1 }

/-- Same scenario as `venvCheckSkipped`, used for the implicit claim about
the skipped guard (kept separate so each claim has its own scenario). -/
def venvGuardHole : VerifyEnv :=
  { isConnected := true, ensureEnv := envOnTarget, present2 := false, finalRead := 7 }

/-- A verify attempt where every stage succeeds and the final double-check
reads the target chain id. -/
def venvHappy : VerifyEnv :=
  { isConnected := true, ensureEnv := envOnTarget
    present2 := true, finalRead := celoSepoliaId }

/-- An add-chain failure that is not `AlreadyRegistered`: the user declined
the add prompt with code `4001`. -/
def addDeclinedErr : WalletError :=
  { code := some 4001, message := some "User rejected the request." }

/-- The poll loop, when its accumulated last read is not the target, resolves
true exactly when its final read is the target. -/
theorem pollLoop_ok_iff_lastRead (target : Nat) (reads : Nat → Nat) :
    ∀ fuel idx last polls, last ≠ some target →
      ((pollLoop target reads idx fuel last polls).ok = true
        ↔ (pollLoop target reads idx fuel last polls).lastRead = some target) := by
  intro fuel
  induction fuel with
  | zero =>
    intro idx last polls hlast
    simp [pollLoop, hlast]
  | succ fuel ih =>
    intro idx last polls hlast
    by_cases h : reads idx = target
    · simp [pollLoop, h]
    · have hne : some (reads idx) ≠ some target := by
        intro hc
        exact h (Option.some.inj hc)
      simpa [pollLoop, h] using ih (idx + 1) (some (reads idx)) (polls + 1) hne

/-- Full characterisation of the poll loop: either every read misses the
target and exactly `fuel` polls happen with result `false`, or some first
read at offset `k` hits the target and `k + 1` polls happen with result
`true`. -/
theorem pollLoop_spec (target : Nat) (reads : Nat → Nat) :
    ∀ fuel idx last polls,
      ((pollLoop target reads idx fuel last polls).ok = false
          ∧ (pollLoop target reads idx fuel last polls).polls = polls + fuel
          ∧ ∀ j, j < fuel → reads (idx + j) ≠ target)
        ∨ (∃ k, k < fuel
            ∧ (pollLoop target reads idx fuel last polls).ok = true
            ∧ (pollLoop target reads idx fuel last polls).polls = polls + k + 1
            ∧ reads (idx + k) = target
            ∧ ∀ j, j < k → reads (idx + j) ≠ target) := by
  intro fuel
  induction fuel with
  | zero =>
    intro idx last polls
    left
    refine ⟨by simp [pollLoop], by simp [pollLoop], ?_⟩
    intro j hj
    omega
  | succ fuel ih =>
    intro idx last polls
    by_cases h : reads idx = target
    · right
      refine ⟨0, by omega, by simp [pollLoop, h], by simp [pollLoop, h], by simpa using h, ?_⟩
      intro j hj
      omega
    · have hpoll : pollLoop target reads idx (fuel + 1) last polls
          = pollLoop target reads (idx + 1) fuel (some (reads idx)) (polls + 1) := by
        simp [pollLoop, h]
      rcases ih (idx + 1) (some (reads idx)) (polls + 1) with ⟨hok, hp, hall⟩ | ⟨k, hk, hok, hp, hhit, hmiss⟩
      · left
        refine ⟨by rw [hpoll]; exact hok, by rw [hpoll, hp]; omega, ?_⟩
        intro j hj
        match j with
        | 0 => simpa using h
        | j' + 1 =>
          have := hall j' (by omega)
          simpa [show idx + 1 + j' = idx + (j' + 1) from by omega] using this
      · right
        refine ⟨k + 1, by omega, by rw [hpoll]; exact hok, by rw [hpoll, hp]; omega, ?_, ?_⟩
        · simpa [show idx + (k + 1) = idx + 1 + k from by omega] using hhit
        · intro j hj
          match j with
          | 0 => simpa using h
          | j' + 1 =>
            have := hmiss j' (by omega)
            simpa [show idx + 1 + j' = idx + (j' + 1) from by omega] using this

/-- Unfolding helper: with the provider present, a mismatching first read and
an accepted switch phase, `ensureCeloNetwork` is the poll loop's verdict. -/
theorem ensureCeloNetwork_eq_poll (target : Nat) (env : ProviderEnv)
    (hp : env.present = true) (h0 : env.reads 0 ≠ target)
    (hsw : (switchPhase env).1 = Except.ok ()) :
    ensureCeloNetwork target env =
      ⟨(pollLoop target env.reads 1 10 (some (env.reads 0)) 0).ok,
       (switchPhase env).2.1, (switchPhase env).2.2,
       1 + (pollLoop target env.reads 1 10 (some (env.reads 0)) 0).polls,
       (pollLoop target env.reads 1 10 (some (env.reads 0)) 0).polls,
       (pollLoop target env.reads 1 10 (some (env.reads 0)) 0).lastRead⟩ := by
  unfold ensureCeloNetwork
  rw [hp]
  simp only [Bool.true_eq_false, if_false, h0, if_neg h0, hsw]

/-- Unfolding helper: with the provider present, a mismatching first read and
an error escaping the switch phase, `ensureCeloNetwork` resolves `false`
after the single initial read. -/
theorem ensureCeloNetwork_eq_switchError (target : Nat) (env : ProviderEnv)
    (e : WalletError) (hp : env.present = true) (h0 : env.reads 0 ≠ target)
    (hsw : (switchPhase env).1 = Except.error e) :
    ensureCeloNetwork target env =
      ⟨false, (switchPhase env).2.1, (switchPhase env).2.2, 1, 0, some (env.reads 0)⟩ := by
  unfold ensureCeloNetwork
  rw [hp]
  simp only [Bool.true_eq_false, if_false, h0, if_neg h0, hsw]

/-- When the first switch fails with an error whose effective code is not
`4902`, the switch phase re-throws that error after exactly one switch and
zero add requests. -/
theorem switchPhase_first_fail_not4902 (env : ProviderEnv) (e : WalletError)
    (h1 : env.switchRes 0 = some e) (h2 : effectiveCode e ≠ some 4902) :
    switchPhase env = (Except.error e, 1, 0) := by
  unfold switchPhase
  rw [h1]
  have : (effectiveCode e == some 4902) = false := by
    simpa using h2
  simp [this]

/-- When the first switch fails with effective code `4902`, the switch phase
issues exactly one add request and at most three switch requests. -/
theorem switchPhase_4902_counts (env : ProviderEnv) (e : WalletError)
    (h1 : env.switchRes 0 = some e) (h2 : effectiveCode e = some 4902) :
    (switchPhase env).2.2 = 1 ∧ (switchPhase env).2.1 ≤ 3 := by
  unfold switchPhase
  rw [h1]
  have hbeq : (effectiveCode e == some 4902) = true := by
    simp [h2]
  simp only [hbeq, if_true]
  cases addCeloNetwork env.addRes with
  | ok u =>
    cases env.switchRes 1 with
    | none => simp
    | some e2 =>
      by_cases hr : retrySwitchCond e2 = true
      · cases env.switchRes 2 with
        | none => simp [hr]
        | some e3 => simp [hr]
      · simp [Bool.eq_false_iff.mpr hr]
  | error ae =>
    by_cases hr : retrySwitchCond ae = true
    · cases env.switchRes 1 with
      | none => simp [hr]
      | some e2 => simp [hr]
    · simp [Bool.eq_false_iff.mpr hr]

/-- The Bool swallow condition of `addCeloNetwork` decides exactly the named
`AlreadyRegistered` condition. -/
theorem addSwallowCond_iff (e : WalletError) :
    addSwallowCond e = true ↔ AlreadyRegistered e := by
  unfold addSwallowCond AlreadyRegistered containsText
  simp [Bool.or_eq_true, beq_iff_eq, decide_eq_true_eq, or_assoc]

/-- A run of falses contributes no refetch call, whatever the previous
dependency value was. -/
theorem refetchRuns_replicate_false : ∀ (m : Nat) (prev : Option Bool),
    refetchRuns prev (List.replicate m false) = 0 := by
  intro m
  induction m with
  | zero => intro prev; rfl
  | succ m ih =>
    intro prev
    simp only [List.replicate_succ, refetchRuns, verifySuccessEffect]
    rw [ih (some false)]
    simp

/-- A render trace of falses, then one `true`, then falses triggers the
success effect (and so `refetchVerification`) exactly once. -/
theorem refetchRuns_falses_then_true (m : Nat) : ∀ (n : Nat) (prev : Option Bool),
    prev ≠ some true →
    refetchRuns prev (List.replicate n false ++ true :: List.replicate m false) = 1 := by
  intro n
  induction n with
  | zero =>
    intro prev hprev
    simp only [List.replicate, List.nil_append, refetchRuns, verifySuccessEffect]
    rw [if_neg hprev, refetchRuns_replicate_false]
    simp
  | succ n ih =>
    intro prev hprev
    simp only [List.replicate_succ, List.cons_append, refetchRuns, verifySuccessEffect,
      List.append_eq]
    rw [ih (some false) (by simp)]
    simp

/-- Claim C1: for every target chain id and provider environment,
`ensureCeloNetwork` resolves `true` exactly when the chain id it last
re-read directly from the provider equals the target; it never resolves
`true` while the provider reports a different chain. -/
theorem ensureCeloNetwork_true_iff_lastRead_target (target : Nat) (env : ProviderEnv) :
    (ensureCeloNetwork target env).ok = true
      ↔ (ensureCeloNetwork target env).lastRead = some target := by
  by_cases hp : env.present = true
  · by_cases h0 : env.reads 0 = target
    · unfold ensureCeloNetwork
      rw [hp]
      simp [h0]
    · cases hsw : (switchPhase env).1 with
      | ok u =>
        cases u
        rw [ensureCeloNetwork_eq_poll target env hp h0 hsw]
        exact pollLoop_ok_iff_lastRead target env.reads 10 1 (some (env.reads 0)) 0
          (by simp [h0])
      | error e =>
        rw [ensureCeloNetwork_eq_switchError target env e hp h0 hsw]
        simp [h0]
  · have hp' : env.present = false := by
      cases h : env.present
      · rfl
      · exact absurd h hp
    unfold ensureCeloNetwork
    rw [hp']
    simp

/-- Claim C2 (amended): when no provider handle is available,
`ensureCeloNetwork` resolves `false` — it does not throw — before issuing
any provider request, and a verify attempt then stops without dispatching
the contract write: zero network calls are made. -/
theorem ensureCeloNetwork_providerMissing_resolves_false (target : Nat)
    (venv : VerifyEnv) (hp : venv.ensureEnv.present = false) :
    ensureCeloNetwork target venv.ensureEnv = ⟨false, 0, 0, 0, 0, none⟩
    ∧ (handleVerify target venv).writeDispatched = false := by
  have he : ensureCeloNetwork target venv.ensureEnv = ⟨false, 0, 0, 0, 0, none⟩ := by
    unfold ensureCeloNetwork
    rw [hp]
    simp
  refine ⟨he, ?_⟩
  simp only [handleVerify]
  by_cases hc : venv.isConnected = false
  · simp [hc]
  · simp [hc, he]

/-- Claim C2 (counterexample): with the provider absent, `ensureCeloNetwork`
resolves — with value `false` and zero provider requests — instead of
throwing/rejecting, and the verify attempt dispatches nothing. -/
theorem ensureCeloNetwork_providerMissing_counterexample :
    ensureCeloNetwork celoSepoliaId envAbsent = ⟨false, 0, 0, 0, 0, none⟩
    ∧ (handleVerify celoSepoliaId venvAbsent).writeDispatched = false :=
  ⟨rfl, rfl⟩

theorem ensureCeloNetwork_providerMissing_resolves_false_witness :
    venvAbsent.ensureEnv.present = false
    ∧ (ensureCeloNetwork celoSepoliaId venvAbsent.ensureEnv = ⟨false, 0, 0, 0, 0, none⟩
        ∧ (handleVerify celoSepoliaId venvAbsent).writeDispatched = false) :=
  ⟨rfl, ensureCeloNetwork_providerMissing_resolves_false celoSepoliaId venvAbsent rfl⟩

/-- Claim C3: if the provider already reports the target chain id,
`ensureCeloNetwork` resolves `true` immediately after the single initial
read, with zero switch requests, zero add requests and zero polls. -/
theorem ensureCeloNetwork_already_on_target (target : Nat) (env : ProviderEnv)
    (hp : env.present = true) (h0 : env.reads 0 = target) :
    ensureCeloNetwork target env = ⟨true, 0, 0, 1, 0, some target⟩ := by
  unfold ensureCeloNetwork
  rw [hp]
  simp [h0]

theorem ensureCeloNetwork_already_on_target_witness :
    envOnTarget.present = true ∧ envOnTarget.reads 0 = celoSepoliaId
    ∧ ensureCeloNetwork celoSepoliaId envOnTarget = ⟨true, 0, 0, 1, 0, some celoSepoliaId⟩ :=
  ⟨rfl, rfl, ensureCeloNetwork_already_on_target celoSepoliaId envOnTarget rfl rfl⟩

/-- Claim C5: `addCeloNetwork` swallows an add-chain failure exactly when it
satisfies the named `AlreadyRegistered` condition, and every failure is
either swallowed or re-thrown verbatim to the caller. -/
theorem addCeloNetwork_swallows_iff_alreadyRegistered (e : WalletError) :
    (addCeloNetwork (some e) = Except.ok () ↔ AlreadyRegistered e)
    ∧ (addCeloNetwork (some e) = Except.ok ()
        ∨ addCeloNetwork (some e) = Except.error e) := by
  by_cases h : addSwallowCond e = true
  · have hok : addCeloNetwork (some e) = Except.ok () := by
      simp [addCeloNetwork, h]
    exact ⟨⟨fun _ => (addSwallowCond_iff e).mp h, fun _ => hok⟩, Or.inl hok⟩
  · have herr : addCeloNetwork (some e) = Except.error e := by
      simp [addCeloNetwork, h]
    refine ⟨⟨fun hok => ?_, fun har => absurd ((addSwallowCond_iff e).mpr har) h⟩, Or.inr herr⟩
    rw [herr] at hok
    cases hok

/-- Claim C7: a first switch failure whose effective code is not `4902`
(for instance `4001`, user declined) makes `ensureCeloNetwork` resolve
`false` with exactly one switch request — no retry — and no add request,
and `handleVerify` then returns without dispatching the contract write. -/
theorem ensureCeloNetwork_switch_rejected_terminal (target : Nat)
    (venv : VerifyEnv) (e : WalletError)
    (hp : venv.ensureEnv.present = true) (h0 : venv.ensureEnv.reads 0 ≠ target)
    (h1 : venv.ensureEnv.switchRes 0 = some e) (h2 : effectiveCode e ≠ some 4902) :
    (ensureCeloNetwork target venv.ensureEnv).ok = false
    ∧ (ensureCeloNetwork target venv.ensureEnv).switchCount = 1
    ∧ (ensureCeloNetwork target venv.ensureEnv).addCount = 0
    ∧ (handleVerify target venv).writeDispatched = false := by
  have hsp := switchPhase_first_fail_not4902 venv.ensureEnv e h1 h2
  have he : ensureCeloNetwork target venv.ensureEnv
      = ⟨false, 1, 0, 1, 0, some (venv.ensureEnv.reads 0)⟩ := by
    rw [ensureCeloNetwork_eq_switchError target venv.ensureEnv e hp h0 (by rw [hsp]), hsp]
  refine ⟨by rw [he], by rw [he], by rw [he], ?_⟩
  simp only [handleVerify]
  by_cases hc : venv.isConnected = false
  · simp [hc]
  · simp [hc, he]

theorem ensureCeloNetwork_switch_rejected_terminal_witness :
    venvSwitchDeclined.ensureEnv.present = true
    ∧ venvSwitchDeclined.ensureEnv.reads 0 ≠ celoSepoliaId
    ∧ venvSwitchDeclined.ensureEnv.switchRes 0 = some err4001
    ∧ effectiveCode err4001 ≠ some 4902
    ∧ ((ensureCeloNetwork celoSepoliaId venvSwitchDeclined.ensureEnv).ok = false
        ∧ (ensureCeloNetwork celoSepoliaId venvSwitchDeclined.ensureEnv).switchCount = 1
        ∧ (ensureCeloNetwork celoSepoliaId venvSwitchDeclined.ensureEnv).addCount = 0
        ∧ (handleVerify celoSepoliaId venvSwitchDeclined).writeDispatched = false) :=
  ⟨rfl, by decide, rfl, by decide,
    ensureCeloNetwork_switch_rejected_terminal celoSepoliaId venvSwitchDeclined err4001
      rfl (by decide) rfl (by decide)⟩

/-- Claim C4 (amended): when the first switch fails with effective code
`4902`, `ensureCeloNetwork` issues exactly one add-chain request and at most
three switch requests before it resolves. -/
theorem ensureCeloNetwork_4902_one_add_le_three_switches (target : Nat)
    (env : ProviderEnv) (e : WalletError)
    (hp : env.present = true) (h0 : env.reads 0 ≠ target)
    (h1 : env.switchRes 0 = some e) (h2 : effectiveCode e = some 4902) :
    (ensureCeloNetwork target env).addCount = 1
    ∧ (ensureCeloNetwork target env).switchCount ≤ 3 := by
  have hsp := switchPhase_4902_counts env e h1 h2
  cases hsw : (switchPhase env).1 with
  | ok u =>
    cases u
    rw [ensureCeloNetwork_eq_poll target env hp h0 hsw]
    exact ⟨hsp.1, hsp.2⟩
  | error e' =>
    rw [ensureCeloNetwork_eq_switchError target env e' hp h0 hsw]
    exact ⟨hsp.1, hsp.2⟩

/-- Claim C4 (counterexample): the first switch fails with code `4902`, the
add succeeds, the retried switch fails with code `-32603`, so a third switch
is issued — more than the two switch requests the claim allows. -/
theorem ensureCeloNetwork_three_switches_counterexample :
    envThreeSwitches.switchRes 0 = some err4902
    ∧ effectiveCode err4902 = some 4902
    ∧ (ensureCeloNetwork celoSepoliaId envThreeSwitches).addCount = 1
    ∧ (ensureCeloNetwork celoSepoliaId envThreeSwitches).switchCount = 3
    ∧ ¬ (ensureCeloNetwork celoSepoliaId envThreeSwitches).switchCount ≤ 2 := by
  refine ⟨rfl, rfl, ?_, ?_, ?_⟩ <;> decide

theorem ensureCeloNetwork_4902_one_add_le_three_switches_witness :
    envThreeSwitches.present = true
    ∧ envThreeSwitches.reads 0 ≠ celoSepoliaId
    ∧ envThreeSwitches.switchRes 0 = some err4902
    ∧ effectiveCode err4902 = some 4902
    ∧ ((ensureCeloNetwork celoSepoliaId envThreeSwitches).addCount = 1
        ∧ (ensureCeloNetwork celoSepoliaId envThreeSwitches).switchCount ≤ 3) :=
  ⟨rfl, by decide, rfl, by decide,
    ensureCeloNetwork_4902_one_add_le_three_switches celoSepoliaId envThreeSwitches err4902
      rfl (by decide) rfl (by decide)⟩

/-- Claim C6: after an accepted switch, `ensureCeloNetwork` polls the
provider's chain id (one 500-time-unit sleep before each read) at most 10
times; it resolves `true` exactly when one of the 10 polls reads the target
— and then at the first matching poll — and otherwise resolves `false`
after exactly 10 polls; the loop always terminates with a boolean and never
throws. -/
theorem ensureCeloNetwork_poll_bounded (target : Nat) (env : ProviderEnv)
    (hp : env.present = true) (h0 : env.reads 0 ≠ target)
    (hsw : (switchPhase env).1 = Except.ok ()) :
    ((ensureCeloNetwork target env).ok = true
        ↔ ∃ i, i < 10 ∧ env.reads (1 + i) = target)
    ∧ (ensureCeloNetwork target env).sleeps ≤ 10
    ∧ ((ensureCeloNetwork target env).ok = false
        → (ensureCeloNetwork target env).sleeps = 10)
    ∧ ((ensureCeloNetwork target env).ok = true
        → env.reads ((ensureCeloNetwork target env).sleeps) = target
          ∧ ∀ j, 1 ≤ j → j < (ensureCeloNetwork target env).sleeps
              → env.reads j ≠ target) := by
  rw [ensureCeloNetwork_eq_poll target env hp h0 hsw]
  dsimp only
  rcases pollLoop_spec target env.reads 10 1 (some (env.reads 0)) 0 with
    ⟨hok, hp10, hall⟩ | ⟨k, hk, hok, hpk, hhit, hmiss⟩
  · refine ⟨?_, ?_, ?_, ?_⟩
    · rw [hok]
      constructor
      · intro hfalse
        cases hfalse
      · rintro ⟨i, hi, hr⟩
        exact absurd hr (hall i hi)
    · rw [hp10]
    · intro _
      rw [hp10]
    · intro htrue
      rw [hok] at htrue
      cases htrue
  · refine ⟨?_, ?_, ?_, ?_⟩
    · rw [hok]
      exact ⟨fun _ => ⟨k, hk, hhit⟩, fun _ => rfl⟩
    · rw [hpk]
      omega
    · intro hfalse
      rw [hok] at hfalse
      cases hfalse
    · intro _
      constructor
      · rw [hpk]
        have : 0 + k + 1 = 1 + k := by omega
        rw [this]
        exact hhit
      · intro j hj1 hj2
        rw [hpk] at hj2
        have := hmiss (j - 1) (by omega)
        have hjj : 1 + (j - 1) = j := by omega
        rw [hjj] at this
        exact this

theorem ensureCeloNetwork_poll_bounded_witness :
    envSwitchThenPoll.present = true
    ∧ envSwitchThenPoll.reads 0 ≠ celoSepoliaId
    ∧ (switchPhase envSwitchThenPoll).1 = Except.ok ()
    ∧ (((ensureCeloNetwork celoSepoliaId envSwitchThenPoll).ok = true
          ↔ ∃ i, i < 10 ∧ envSwitchThenPoll.reads (1 + i) = celoSepoliaId)
        ∧ (ensureCeloNetwork celoSepoliaId envSwitchThenPoll).sleeps ≤ 10
        ∧ ((ensureCeloNetwork celoSepoliaId envSwitchThenPoll).ok = false
            → (ensureCeloNetwork celoSepoliaId envSwitchThenPoll).sleeps = 10)
        ∧ ((ensureCeloNetwork celoSepoliaId envSwitchThenPoll).ok = true
            → envSwitchThenPoll.reads
                ((ensureCeloNetwork celoSepoliaId envSwitchThenPoll).sleeps) = celoSepoliaId
              ∧ ∀ j, 1 ≤ j → j < (ensureCeloNetwork celoSepoliaId envSwitchThenPoll).sleeps
                  → envSwitchThenPoll.reads j ≠ celoSepoliaId)) :=
  ⟨rfl, by decide, rfl,
    ensureCeloNetwork_poll_bounded celoSepoliaId envSwitchThenPoll rfl (by decide) rfl⟩

/-- Claim C8 (amended): `handleVerify` dispatches the contract write only
when either the chain id re-read immediately before submission equals the
target, or the provider handle is absent at that moment — in which case the
re-check is silently skipped. -/
theorem handleVerify_write_requires_check_or_absent (target : Nat) (venv : VerifyEnv)
    (hw : (handleVerify target venv).writeDispatched = true) :
    venv.present2 = false
    ∨ (handleVerify target venv).finalCheckRead = some target := by
  simp only [handleVerify] at hw ⊢
  by_cases hc : venv.isConnected = false
  · rw [if_pos hc] at hw
    cases hw
  · rw [if_neg hc] at hw ⊢
    by_cases hr : (ensureCeloNetwork target venv.ensureEnv).ok = false
    · rw [if_pos hr] at hw
      cases hw
    · rw [if_neg hr] at hw ⊢
      by_cases hp2 : venv.present2 = true
      · rw [if_pos hp2] at hw ⊢
        by_cases hf : venv.finalRead = target
        · right
          rw [if_pos hf]
          rw [hf]
        · rw [if_neg hf] at hw
          cases hw
      · left
        simpa using hp2

/-- Claim C8 (counterexample): with the provider handle absent at the final
double-check, `handleVerify` dispatches the contract write although no
pre-submission chain-id re-read took place at all. -/
theorem handleVerify_write_without_recheck_counterexample :
    (handleVerify celoSepoliaId venvCheckSkipped).writeDispatched = true
    ∧ (handleVerify celoSepoliaId venvCheckSkipped).finalCheckRead = none
    ∧ venvCheckSkipped.present2 = false :=
  ⟨rfl, rfl, rfl⟩

theorem handleVerify_write_requires_check_or_absent_witness :
    (handleVerify celoSepoliaId venvHappy).writeDispatched = true
    ∧ (venvHappy.present2 = false
        ∨ (handleVerify celoSepoliaId venvHappy).finalCheckRead = some celoSepoliaId) :=
  ⟨rfl, handleVerify_write_requires_check_or_absent celoSepoliaId venvHappy rfl⟩

/-- Claim C9: across a render sequence in which the transaction watcher
reports `Confirmed` once, the success effect triggers exactly one
`refetchVerification` call; the verification read is enabled exactly when an
address is known and the wallet is connected, and it is keyed by the
connected address. -/
theorem refetchVerification_once_on_confirmed (n m : Nat) (a : String)
    (ad : Option String) (c : Bool) :
    refetchRuns none (List.replicate n false ++ true :: List.replicate m false) = 1
    ∧ (readVerifiedEnabled ad c = true ↔ ad.isSome = true ∧ c = true)
    ∧ readVerifiedArgs (some a) = some [a] := by
  refine ⟨refetchRuns_falses_then_true m n none (by simp), ?_, rfl⟩
  cases ad <;> cases c <;> simp [readVerifiedEnabled]

/-- Claim C10: when the provider handle is absent at `handleVerify`'s final
pre-submission check — although `ensureCeloNetwork` succeeded earlier in the
same attempt — the chain re-validation is silently skipped and the
`verifyUser` contract write is dispatched without any chain-id guard. -/
theorem handleVerify_skips_check_when_provider_absent (target : Nat) (venv : VerifyEnv)
    (hc : venv.isConnected = true)
    (he : (ensureCeloNetwork target venv.ensureEnv).ok = true)
    (hp2 : venv.present2 = false) :
    (handleVerify target venv).writeDispatched = true
    ∧ (handleVerify target venv).finalCheckRead = none := by
  simp only [handleVerify]
  rw [hc, hp2]
  simp [he]

theorem handleVerify_skips_check_when_provider_absent_witness :
    venvGuardHole.isConnected = true
    ∧ (ensureCeloNetwork celoSepoliaId venvGuardHole.ensureEnv).ok = true
    ∧ venvGuardHole.present2 = false
    ∧ ((handleVerify celoSepoliaId venvGuardHole).writeDispatched = true
        ∧ (handleVerify celoSepoliaId venvGuardHole).finalCheckRead = none) :=
  ⟨rfl, rfl, rfl,
    handleVerify_skips_check_when_provider_absent celoSepoliaId venvGuardHole rfl rfl rfl⟩
